import Mathlib

/-
  Verification development for the `balls` repository (src/ball_final.py).

  The file shallowly embeds the two core components of the program:

  * class `ball` (trajectory generation): `ball.__init__` stores the launch
    parameters, computes `tmax` and the first time vector via `np.arange`,
    and calls `ball.random_generation`, which computes the first parabolic
    arc and then iterates the bounce loop `for ii in range(1, n_rebounds)`.

  * class `an_animation` (multi-body synchronizer): `an_animation.__init__`
    computes `max_len = max(len(balls[ii].x_tot) for ii)` (Python's `max`
    raises ValueError on an empty list) and calls `reset_time`, which pads
    every ball's `x_tot`/`y_tot` with repetitions of their last entries
    (`x_tot[-1]` raises IndexError on an empty array).

  Modelling conventions:
  * Floating point arithmetic is modelled by exact arithmetic in a linear
    ordered field (instantiated at ℚ for executable checks, at ℝ for the
    claims that quantify over a launch angle theta).
  * The code only ever uses `np.sin(self.theta)` and `np.cos(self.theta)`;
    the embedding carries those two values as fields `s` and `c`.  Theorems
    about an angle instantiate `s := Real.sin theta`, `c := Real.cos theta`.
  * `np.arange(start, stop, step)` produces `max(0, ceil((stop-start)/step))`
    samples `start + i*step`; `np.linspace(start, stop, num)` produces `num`
    samples `start + i*(stop-start)/(num-1)` (endpoint included).
  * Fallible operations (Python exceptions) are modelled with `Option`.
-/

namespace BallSpec

variable {α : Type} [LinearOrderedField α] [FloorRing α]

/-- Number of samples of `np.arange(start, stop, step)`: in exact arithmetic
`max(0, ceil((stop - start) / step))`.  numpy raises on a zero step; that
case is never reached by the claims and is mapped to the empty vector. -/
def arangeLen (start stop step : α) : ℕ :=
  if step = 0 then 0 else (Int.ceil ((stop - start) / step)).toNat

/-- The sample list of `np.arange(start, stop, step)`. -/
def arange (start stop step : α) : List α :=
  (List.range (arangeLen start stop step)).map (fun (i : ℕ) => start + (i : α) * step)

/-- The sample list of `np.linspace(start, stop, num)` (endpoint included). -/
def linspace (start stop : α) (num : ℕ) : List α :=
  (List.range num).map (fun (i : ℕ) => start + (i : α) * ((stop - start) / ((num : α) - 1)))

/-- The eight arguments of `ball.__init__` (with `theta` carried as the pair
`s = sin theta`, `c = cos theta`, the only two values the code derives
from it). -/
structure LaunchParams (α : Type) where
  g : α
  n_rebounds : ℕ
  x0 : α
  y0 : α
  v0 : α
  s : α
  c : α
  r : α
  t0 : α
  deriving DecidableEq

/-- The attribute state of a `ball` object.  `x_tot`, `y_tot`, `vr` are
assigned by `random_generation`; `tmax` and `t` by `__init__`. -/
structure Ball (α : Type) where
  g : α
  n_rebounds : ℕ
  x0 : α
  y0 : α
  v0 : α
  s : α
  c : α
  r : α
  t0 : α
  tmax : α
  vr : α
  t : List α
  x_tot : List α
  y_tot : List α
  deriving DecidableEq

/-- `ball.__init__` lines 54-66: store the parameters, compute
`tmax = 2*v0*sin(theta)/g + t0`, `dt = tmax/100` (note: `tmax`, not
`tmax - t0`) and `t = np.arange(t0, tmax, dt)`.  The fields `vr`, `x_tot`,
`y_tot` do not exist yet at this point in Python; they are given placeholder
values here and are assigned by `random_generation` before any use. -/
def ball_setup (p : LaunchParams α) : Ball α :=
  { g := p.g, n_rebounds := p.n_rebounds, x0 := p.x0, y0 := p.y0, v0 := p.v0,
    s := p.s, c := p.c, r := p.r, t0 := p.t0,
    tmax := 2 * p.v0 * p.s / p.g + p.t0,
    vr := 0,
    t := arange p.t0 (2 * p.v0 * p.s / p.g + p.t0) ((2 * p.v0 * p.s / p.g + p.t0) / 100),
    x_tot := [], y_tot := [] }

/-- `random_generation` lines 77-80 (before the loop): first arc samples
from the closed-form parabola, and `vr = v0`. -/
def loop_start (b : Ball α) : Ball α :=
  { b with
    x_tot := b.t.map (fun ti => b.v0 * b.c * (ti - b.t0) + b.x0),
    y_tot := b.t.map (fun ti => -b.g / 2 * (ti - b.t0) ^ 2 + b.v0 * b.s * (ti - b.t0) + b.y0),
    vr := b.v0 }

/-- One iteration `ii` of the loop in `random_generation` (lines 84-96).
The Python statements assign sequentially; each right-hand side below
inlines the values the corresponding Python expression reads:
`x0` is updated first (using the old `vr`, `tmax`, `t0`), then
`vr = r**ii * v0`, then `t0 = tmax` (old), then
`tmax = 2*vr*sin(theta)/g + t0` (new `vr`, new `t0`), then
`t = np.linspace(t0, tmax, 100)` and the arc samples are appended. -/
def bounce_step (b : Ball α) (ii : ℕ) : Ball α :=
  { b with
    x0 := b.vr * b.c * (b.tmax - b.t0) + b.x0,
    vr := b.r ^ ii * b.v0,
    t0 := b.tmax,
    tmax := 2 * (b.r ^ ii * b.v0) * b.s / b.g + b.tmax,
    t := linspace b.tmax (2 * (b.r ^ ii * b.v0) * b.s / b.g + b.tmax) 100,
    x_tot := b.x_tot ++ (linspace b.tmax (2 * (b.r ^ ii * b.v0) * b.s / b.g + b.tmax) 100).map
      (fun ti => b.r ^ ii * b.v0 * b.c * (ti - b.tmax) + (b.vr * b.c * (b.tmax - b.t0) + b.x0)),
    y_tot := b.y_tot ++ (linspace b.tmax (2 * (b.r ^ ii * b.v0) * b.s / b.g + b.tmax) 100).map
      (fun ti => -b.g / 2 * (ti - b.tmax) ^ 2 + b.r ^ ii * b.v0 * b.s * (ti - b.tmax) + b.y0) }

/-- Run the bounce loop for the iterations `ii = 1, 2, ..., k` in order. -/
def bounce_iter (b : Ball α) : ℕ → Ball α
  | 0 => b
  | k + 1 => bounce_step (bounce_iter b k) (k + 1)

/-- `ball.random_generation` (lines 72-96): the first arc followed by the
loop `for ii in range(1, n_rebounds)`. -/
def random_generation (b : Ball α) : Ball α :=
  bounce_iter (loop_start b) (b.n_rebounds - 1)

/-- The full `ball` constructor: `__init__` ends by calling
`random_generation`. -/
def ball_new (p : LaunchParams α) : Ball α :=
  random_generation (ball_setup p)

/-- The generation state after the bounce-loop iterations `1..k`
(`state_after p 0` is the state just before the loop). -/
def state_after (p : LaunchParams α) (k : ℕ) : Ball α :=
  bounce_iter (loop_start (ball_setup p)) k

/-- Closed form for the flight duration of arc `k` (0-based; arc 0 is the
initial arc): `2 * (r^k * v0) * sin(theta) / g`. -/
def arc_dur (p : LaunchParams α) (k : ℕ) : α :=
  2 * (p.r ^ k * p.v0) * p.s / p.g

/-- Closed form for the start time of arc `k`. -/
def arc_t0 (p : LaunchParams α) (k : ℕ) : α :=
  p.t0 + (Finset.range k).sum (fun j => arc_dur p j)

/-- Closed form for the horizontal origin of arc `k`. -/
def arc_x0 (p : LaunchParams α) (k : ℕ) : α :=
  p.x0 + (Finset.range k).sum (fun j => p.r ^ j * p.v0 * p.c * arc_dur p j)

/-- Closed form for the time samples of arc `k`: the half-open `np.arange`
grid for the initial arc, the closed `np.linspace` grid for later arcs. -/
def arc_times (p : LaunchParams α) (k : ℕ) : List α :=
  if k = 0 then arange p.t0 (arc_t0 p 1) (arc_t0 p 1 / 100)
  else linspace (arc_t0 p k) (arc_t0 p (k + 1)) 100

/-- Closed form for the x samples of arc `k`. -/
def arc_x (p : LaunchParams α) (k : ℕ) : List α :=
  (arc_times p k).map (fun ti => p.r ^ k * p.v0 * p.c * (ti - arc_t0 p k) + arc_x0 p k)

/-- Closed form for the y samples of arc `k`. -/
def arc_y (p : LaunchParams α) (k : ℕ) : List α :=
  (arc_times p k).map
    (fun ti => -p.g / 2 * (ti - arc_t0 p k) ^ 2 + p.r ^ k * p.v0 * p.s * (ti - arc_t0 p k) + p.y0)

/-- Closed form for the whole `x_tot` of a ball: concatenation of the arcs. -/
def traj_x (p : LaunchParams α) : List α :=
  ((List.range p.n_rebounds).map (arc_x p)).flatten

/-- Closed form for the whole `y_tot` of a ball. -/
def traj_y (p : LaunchParams α) : List α :=
  ((List.range p.n_rebounds).map (arc_y p)).flatten

/-- The y value of the current arc of a generation state, as a function of
the time offset from the arc's start. -/
def arc_y_of (b : Ball α) (τ : α) : α :=
  -b.g / 2 * τ ^ 2 + b.vr * b.s * τ + b.y0

/-- Apex height of the current arc above the launch height: the arc's
parabola evaluated at its vertex `τ = vr*s/g`, minus `y0`. -/
def apex_height (b : Ball α) : α :=
  arc_y_of b (b.vr * b.s / b.g) - b.y0

/-- Python's `max` over a list of naturals: `none` (ValueError) on `[]`. -/
def list_max : List ℕ → Option ℕ
  | [] => none
  | a :: l =>
    match list_max l with
    | none => some a
    | some m => some (Nat.max a m)

/-- `an_animation.__init__` line 145: `max_len` is the maximum of the
`x_tot` lengths; Python's `max` raises ValueError on an empty ensemble. -/
def max_len (balls : List (Ball α)) : Option ℕ :=
  list_max (balls.map (fun b => b.x_tot.length))

/-- The body of the loop in `an_animation.reset_time` (lines 153-156) for a
single ball: pad `x_tot` and `y_tot` with `max_len - len(x_tot)` copies of
their last entries.  Both padding counts use `len(x_tot)`.  Indexing
`x_tot[-1]` / `y_tot[-1]` raises IndexError on an empty array, hence the
`Option`. -/
def reset_ball (m : ℕ) (b : Ball α) : Option (Ball α) :=
  match b.x_tot.getLast?, b.y_tot.getLast? with
  | some xl, some yl =>
      some { b with
        x_tot := b.x_tot ++ List.replicate (m - b.x_tot.length) xl,
        y_tot := b.y_tot ++ List.replicate (m - b.x_tot.length) yl }
  | _, _ => none

/-- `an_animation.reset_time` (lines 149-156): pad every ball. -/
def reset_time (m : ℕ) : List (Ball α) → Option (List (Ball α))
  | [] => some []
  | b :: bs =>
    match reset_ball m b, reset_time m bs with
    | some b', some bs' => some (b' :: bs')
    | _, _ => none

/-- `an_animation.__init__` (lines 138-146): compute `max_len`, then pad. -/
def an_animation_init (balls : List (Ball α)) : Option (List (Ball α)) :=
  match max_len balls with
  | none => none
  | some m => reset_time m balls

/-! ### Basic sampling lemmas -/

theorem length_linspace (start stop : α) (num : ℕ) : (linspace start stop num).length = num := by
  simp [linspace]

theorem length_arange (start stop step : α) :
    (arange start stop step).length = arangeLen start stop step := by
  simp [arange]

/-- Evaluation rule for `arangeLen` when the quotient is a (nonnegative)
whole number. -/
theorem arangeLen_eq_of_div (start stop step : α) (m : ℕ) (h : step ≠ 0)
    (hm : (stop - start) / step = (m : α)) : arangeLen start stop step = m := by
  rw [arangeLen, if_neg h, hm, Int.ceil_natCast, Int.toNat_natCast]

theorem getElem?_arange (start stop step : α) (i : ℕ) (hi : i < arangeLen start stop step) :
    (arange start stop step)[i]? = some (start + (i : α) * step) := by
  rw [arange, List.getElem?_map, List.getElem?_range hi]
  rfl

theorem getElem?_linspace (start stop : α) (num i : ℕ) (hi : i < num) :
    (linspace start stop num)[i]? = some (start + (i : α) * ((stop - start) / ((num : α) - 1))) := by
  rw [linspace, List.getElem?_map, List.getElem?_range hi]
  rfl

/-! ### Scalar fields along the generation loop -/

theorem bounce_step_g (b : Ball α) (ii : ℕ) : (bounce_step b ii).g = b.g := rfl

theorem bounce_step_s (b : Ball α) (ii : ℕ) : (bounce_step b ii).s = b.s := rfl

theorem bounce_step_c (b : Ball α) (ii : ℕ) : (bounce_step b ii).c = b.c := rfl

theorem bounce_step_r (b : Ball α) (ii : ℕ) : (bounce_step b ii).r = b.r := rfl

theorem bounce_step_v0 (b : Ball α) (ii : ℕ) : (bounce_step b ii).v0 = b.v0 := rfl

theorem bounce_step_y0 (b : Ball α) (ii : ℕ) : (bounce_step b ii).y0 = b.y0 := rfl

theorem bounce_step_n (b : Ball α) (ii : ℕ) : (bounce_step b ii).n_rebounds = b.n_rebounds := rfl

theorem bounce_iter_g (b : Ball α) (k : ℕ) : (bounce_iter b k).g = b.g := by
  induction k with
  | zero => rfl
  | succ k ih => rw [bounce_iter, bounce_step_g, ih]

theorem bounce_iter_s (b : Ball α) (k : ℕ) : (bounce_iter b k).s = b.s := by
  induction k with
  | zero => rfl
  | succ k ih => rw [bounce_iter, bounce_step_s, ih]

theorem bounce_iter_c (b : Ball α) (k : ℕ) : (bounce_iter b k).c = b.c := by
  induction k with
  | zero => rfl
  | succ k ih => rw [bounce_iter, bounce_step_c, ih]

theorem bounce_iter_r (b : Ball α) (k : ℕ) : (bounce_iter b k).r = b.r := by
  induction k with
  | zero => rfl
  | succ k ih => rw [bounce_iter, bounce_step_r, ih]

theorem bounce_iter_v0 (b : Ball α) (k : ℕ) : (bounce_iter b k).v0 = b.v0 := by
  induction k with
  | zero => rfl
  | succ k ih => rw [bounce_iter, bounce_step_v0, ih]

theorem bounce_iter_y0 (b : Ball α) (k : ℕ) : (bounce_iter b k).y0 = b.y0 := by
  induction k with
  | zero => rfl
  | succ k ih => rw [bounce_iter, bounce_step_y0, ih]

theorem bounce_iter_n (b : Ball α) (k : ℕ) : (bounce_iter b k).n_rebounds = b.n_rebounds := by
  induction k with
  | zero => rfl
  | succ k ih => rw [bounce_iter, bounce_step_n, ih]

/-! ### Sample counts -/

theorem bounce_step_x_len (b : Ball α) (ii : ℕ) :
    (bounce_step b ii).x_tot.length = b.x_tot.length + 100 := by
  simp [bounce_step, length_linspace]

theorem bounce_step_y_len (b : Ball α) (ii : ℕ) :
    (bounce_step b ii).y_tot.length = b.y_tot.length + 100 := by
  simp [bounce_step, length_linspace]

theorem bounce_iter_x_len (b : Ball α) (k : ℕ) :
    (bounce_iter b k).x_tot.length = b.x_tot.length + 100 * k := by
  induction k with
  | zero => simp [bounce_iter]
  | succ k ih => rw [bounce_iter, bounce_step_x_len, ih]; ring

theorem bounce_iter_y_len (b : Ball α) (k : ℕ) :
    (bounce_iter b k).y_tot.length = b.y_tot.length + 100 * k := by
  induction k with
  | zero => simp [bounce_iter]
  | succ k ih => rw [bounce_iter, bounce_step_y_len, ih]; ring

theorem ball_new_x_len (p : LaunchParams α) :
    (ball_new p).x_tot.length = (ball_setup p).t.length + 100 * (p.n_rebounds - 1) := by
  rw [ball_new, random_generation, bounce_iter_x_len]
  simp [loop_start, ball_setup]

theorem ball_new_y_len (p : LaunchParams α) :
    (ball_new p).y_tot.length = (ball_setup p).t.length + 100 * (p.n_rebounds - 1) := by
  rw [ball_new, random_generation, bounce_iter_y_len]
  simp [loop_start, ball_setup]

/-! ### Closed forms for the loop state -/

theorem arc_t0_zero (p : LaunchParams α) : arc_t0 p 0 = p.t0 := by
  simp [arc_t0]

theorem arc_t0_succ (p : LaunchParams α) (k : ℕ) :
    arc_t0 p (k + 1) = arc_t0 p k + arc_dur p k := by
  rw [arc_t0, arc_t0, Finset.sum_range_succ]; ring

theorem arc_x0_zero (p : LaunchParams α) : arc_x0 p 0 = p.x0 := by
  simp [arc_x0]

theorem arc_x0_succ (p : LaunchParams α) (k : ℕ) :
    arc_x0 p (k + 1) = arc_x0 p k + p.r ^ k * p.v0 * p.c * arc_dur p k := by
  rw [arc_x0, arc_x0, Finset.sum_range_succ]; ring

theorem arc_t0_one (p : LaunchParams α) : arc_t0 p 1 = 2 * p.v0 * p.s / p.g + p.t0 := by
  rw [arc_t0_succ, arc_t0_zero, arc_dur, pow_zero]
  ring

theorem state_after_zero (p : LaunchParams α) :
    state_after p 0 = loop_start (ball_setup p) := rfl

theorem state_after_succ (p : LaunchParams α) (k : ℕ) :
    state_after p (k + 1) = bounce_step (state_after p k) (k + 1) := rfl

theorem ball_new_eq_state (p : LaunchParams α) :
    ball_new p = state_after p (p.n_rebounds - 1) := rfl

/-- Main structural lemma: after bounce-loop iterations `1..k` the mutable
scalars equal their closed forms and the accumulated samples are the
concatenation of the closed-form arcs `0..k`. -/
theorem state_spec (p : LaunchParams α) (k : ℕ) :
    (state_after p k).vr = p.r ^ k * p.v0 ∧
    (state_after p k).t0 = arc_t0 p k ∧
    (state_after p k).tmax = arc_t0 p (k + 1) ∧
    (state_after p k).x0 = arc_x0 p k ∧
    (state_after p k).x_tot = ((List.range (k + 1)).map (arc_x p)).flatten ∧
    (state_after p k).y_tot = ((List.range (k + 1)).map (arc_y p)).flatten := by
  induction k with
  | zero =>
    rw [state_after_zero]
    refine ⟨by simp [loop_start, ball_setup], by simp [loop_start, ball_setup, arc_t0_zero],
      by simp [loop_start, ball_setup, arc_t0_one], by simp [loop_start, ball_setup, arc_x0_zero],
      ?_, ?_⟩
    · show (ball_setup p).t.map _ = _
      have ht : (ball_setup p).t = arc_times p 0 := by
        rw [arc_times, if_pos rfl, arc_t0_one, ball_setup]
      rw [ht]
      have : List.range 1 = [0] := rfl
      rw [this]
      simp only [List.map_cons, List.map_nil, List.flatten_cons, List.flatten_nil,
        List.append_nil, arc_x]
      apply List.map_congr_left
      intro ti _
      show p.v0 * p.c * (ti - p.t0) + p.x0 = _
      rw [pow_zero, arc_t0_zero, arc_x0_zero]
      ring
    · show (ball_setup p).t.map _ = _
      have ht : (ball_setup p).t = arc_times p 0 := by
        rw [arc_times, if_pos rfl, arc_t0_one, ball_setup]
      rw [ht]
      have : List.range 1 = [0] := rfl
      rw [this]
      simp only [List.map_cons, List.map_nil, List.flatten_cons, List.flatten_nil,
        List.append_nil, arc_y]
      apply List.map_congr_left
      intro ti _
      show -p.g / 2 * (ti - p.t0) ^ 2 + p.v0 * p.s * (ti - p.t0) + p.y0 = _
      rw [pow_zero, arc_t0_zero]
      ring
  | succ k ih =>
    obtain ⟨hvr, ht0, htmax, hx0, hxt, hyt⟩ := ih
    have hg := bounce_iter_g (loop_start (ball_setup p)) k
    have hs := bounce_iter_s (loop_start (ball_setup p)) k
    have hc := bounce_iter_c (loop_start (ball_setup p)) k
    have hr := bounce_iter_r (loop_start (ball_setup p)) k
    have hv0 := bounce_iter_v0 (loop_start (ball_setup p)) k
    have hy0 := bounce_iter_y0 (loop_start (ball_setup p)) k
    have hg' : (state_after p k).g = p.g := by rw [state_after, hg]; rfl
    have hs' : (state_after p k).s = p.s := by rw [state_after, hs]; rfl
    have hc' : (state_after p k).c = p.c := by rw [state_after, hc]; rfl
    have hr' : (state_after p k).r = p.r := by rw [state_after, hr]; rfl
    have hv0' : (state_after p k).v0 = p.v0 := by rw [state_after, hv0]; rfl
    have hy0' : (state_after p k).y0 = p.y0 := by rw [state_after, hy0]; rfl
    rw [state_after_succ]
    have hdur : arc_t0 p (k + 1 + 1) = 2 * (p.r ^ (k + 1) * p.v0) * p.s / p.g + arc_t0 p (k + 1) := by
      rw [arc_t0_succ p (k + 1), arc_dur]; ring
    have htimes : arc_times p (k + 1) = linspace (arc_t0 p (k + 1)) (arc_t0 p (k + 1 + 1)) 100 := by
      rw [arc_times, if_neg (Nat.succ_ne_zero k)]
    have hxnew : arc_x0 p (k + 1) =
        p.r ^ k * p.v0 * p.c * (arc_t0 p (k + 1) - arc_t0 p k) + arc_x0 p k := by
      rw [arc_x0_succ, arc_t0_succ]; ring
    refine ⟨?_, ?_, ?_, ?_, ?_, ?_⟩
    · show (state_after p k).r ^ (k + 1) * (state_after p k).v0 = _
      rw [hr', hv0']
    · show (state_after p k).tmax = _
      rw [htmax]
    · show 2 * ((state_after p k).r ^ (k + 1) * (state_after p k).v0) * (state_after p k).s /
          (state_after p k).g + (state_after p k).tmax = _
      rw [hr', hv0', hs', hg', htmax, hdur]
    · show (state_after p k).vr * (state_after p k).c *
          ((state_after p k).tmax - (state_after p k).t0) + (state_after p k).x0 = _
      rw [hvr, hc', htmax, ht0, hx0, hxnew]
    · show (state_after p k).x_tot ++ _ = _
      rw [List.range_succ, List.map_append, List.flatten_append, hxt]
      simp only [List.map_cons, List.map_nil, List.flatten_cons, List.flatten_nil,
        List.append_nil]
      congr 1
      rw [arc_x, htimes]
      have harg : linspace (state_after p k).tmax
          (2 * ((state_after p k).r ^ (k + 1) * (state_after p k).v0) * (state_after p k).s /
            (state_after p k).g + (state_after p k).tmax) 100 =
          linspace (arc_t0 p (k + 1)) (arc_t0 p (k + 1 + 1)) 100 := by
        rw [hr', hv0', hs', hg', htmax, hdur]
      rw [harg]
      apply List.map_congr_left
      intro ti _
      show (state_after p k).r ^ (k + 1) * (state_after p k).v0 * (state_after p k).c *
          (ti - (state_after p k).tmax) +
          ((state_after p k).vr * (state_after p k).c *
            ((state_after p k).tmax - (state_after p k).t0) + (state_after p k).x0) = _
      rw [hr', hv0', hc', htmax, hvr, ht0, hx0, hxnew]
    · show (state_after p k).y_tot ++ _ = _
      rw [List.range_succ, List.map_append, List.flatten_append, hyt]
      simp only [List.map_cons, List.map_nil, List.flatten_cons, List.flatten_nil,
        List.append_nil]
      congr 1
      rw [arc_y, htimes]
      have harg : linspace (state_after p k).tmax
          (2 * ((state_after p k).r ^ (k + 1) * (state_after p k).v0) * (state_after p k).s /
            (state_after p k).g + (state_after p k).tmax) 100 =
          linspace (arc_t0 p (k + 1)) (arc_t0 p (k + 1 + 1)) 100 := by
        rw [hr', hv0', hs', hg', htmax, hdur]
      rw [harg]
      apply List.map_congr_left
      intro ti _
      show -(state_after p k).g / 2 * (ti - (state_after p k).tmax) ^ 2 +
          (state_after p k).r ^ (k + 1) * (state_after p k).v0 * (state_after p k).s *
            (ti - (state_after p k).tmax) + (state_after p k).y0 = _
      rw [hr', hv0', hs', hg', htmax, hy0']

/-! ### Trajectory decomposition and arc boundary values -/

theorem ball_new_x_traj (p : LaunchParams α) (hn : 1 ≤ p.n_rebounds) :
    (ball_new p).x_tot = traj_x p := by
  rw [ball_new_eq_state, (state_spec p (p.n_rebounds - 1)).2.2.2.2.1, traj_x,
    Nat.sub_add_cancel hn]

theorem ball_new_y_traj (p : LaunchParams α) (hn : 1 ≤ p.n_rebounds) :
    (ball_new p).y_tot = traj_y p := by
  rw [ball_new_eq_state, (state_spec p (p.n_rebounds - 1)).2.2.2.2.2, traj_y,
    Nat.sub_add_cancel hn]

theorem getLast?_map_range {β : Type} (F : ℕ → β) (m : ℕ) :
    ((List.range (m + 1)).map F).getLast? = some (F m) := by
  rw [List.range_succ, List.map_append]
  simp

theorem head?_map_range {β : Type} (F : ℕ → β) (m : ℕ) :
    ((List.range (m + 1)).map F).head? = some (F 0) := by
  rw [List.range_succ_eq_map]
  simp

theorem linspace_getLast? (start stop : α) :
    (linspace start stop 100).getLast? = some stop := by
  have h : (100 : ℕ) = 99 + 1 := rfl
  rw [linspace, h, getLast?_map_range]
  congr 1
  have h99 : ((99:ℕ) : α) = (99 : α) := by norm_num
  have h100 : ((100:ℕ) : α) - 1 = (99 : α) := by norm_num
  rw [h99, h100, mul_div_cancel₀ _ (by norm_num : (99:α) ≠ 0)]
  ring

theorem linspace_head? (start stop : α) :
    (linspace start stop 100).head? = some start := by
  have h : (100 : ℕ) = 99 + 1 := rfl
  rw [linspace, h, head?_map_range]
  congr 1
  simp

theorem arc_x_getLast? (p : LaunchParams α) (k : ℕ) (hk : k ≠ 0) :
    (arc_x p k).getLast? = some (arc_x0 p (k + 1)) := by
  rw [arc_x, arc_times, if_neg hk]
  rw [show ((linspace (arc_t0 p k) (arc_t0 p (k + 1)) 100).map _).getLast? =
      Option.map _ (linspace (arc_t0 p k) (arc_t0 p (k + 1)) 100).getLast? from
      List.getLast?_map _ _, linspace_getLast?]
  show some _ = _
  congr 1
  rw [arc_x0_succ, arc_t0_succ]
  ring

theorem arc_x_head? (p : LaunchParams α) (k : ℕ) (hk : k ≠ 0) :
    (arc_x p k).head? = some (arc_x0 p k) := by
  rw [arc_x, arc_times, if_neg hk, List.head?_map, linspace_head?]
  show some _ = _
  congr 1
  ring

theorem arc_y_getLast? (p : LaunchParams α) (k : ℕ) (hk : k ≠ 0) (hg : p.g ≠ 0) :
    (arc_y p k).getLast? = some p.y0 := by
  rw [arc_y, arc_times, if_neg hk]
  rw [show ((linspace (arc_t0 p k) (arc_t0 p (k + 1)) 100).map _).getLast? =
      Option.map _ (linspace (arc_t0 p k) (arc_t0 p (k + 1)) 100).getLast? from
      List.getLast?_map _ _, linspace_getLast?]
  show some _ = _
  congr 1
  rw [arc_t0_succ]
  show -p.g / 2 * (arc_t0 p k + arc_dur p k - arc_t0 p k) ^ 2 +
      p.r ^ k * p.v0 * p.s * (arc_t0 p k + arc_dur p k - arc_t0 p k) + p.y0 = p.y0
  have hd : arc_t0 p k + arc_dur p k - arc_t0 p k = arc_dur p k := by ring
  rw [hd, arc_dur]
  field_simp
  ring

theorem arc_y_head? (p : LaunchParams α) (k : ℕ) (hk : k ≠ 0) :
    (arc_y p k).head? = some p.y0 := by
  rw [arc_y, arc_times, if_neg hk, List.head?_map, linspace_head?]
  show some _ = _
  congr 1
  ring

/-! ### Synchronizer lemmas -/

theorem list_max_nil_iff (l : List ℕ) : list_max l = none ↔ l = [] := by
  constructor
  · intro h
    cases l with
    | nil => rfl
    | cons a l' => rw [list_max] at h; cases hl : list_max l' <;> rw [hl] at h <;> cases h
  · intro h; rw [h]; rfl

theorem list_max_le (l : List ℕ) (m : ℕ) (h : list_max l = some m) : ∀ x ∈ l, x ≤ m := by
  induction l generalizing m with
  | nil => intro x hx; cases hx
  | cons a l ih =>
    intro x hx
    rw [list_max] at h
    cases hl : list_max l with
    | none =>
      have hl' : l = [] := (list_max_nil_iff l).mp hl
      subst hl'
      rw [hl] at h
      simp only [] at h
      cases h
      cases hx with
      | head => exact le_refl _
      | tail _ hx' => cases hx'
    | some m' =>
      rw [hl] at h
      simp only [] at h
      cases h
      cases hx with
      | head => exact Nat.le_max_left _ _
      | tail _ hx' => exact le_trans (ih m' hl x hx') (Nat.le_max_right _ _)

theorem list_max_ne_nil (l : List ℕ) (h : l ≠ []) : ∃ m, list_max l = some m := by
  cases l with
  | nil => exact absurd rfl h
  | cons a l =>
    rw [list_max]
    cases list_max l with
    | none => exact ⟨a, rfl⟩
    | some m => exact ⟨Nat.max a m, rfl⟩

theorem list_max_const (l : List ℕ) (m : ℕ) (hne : l ≠ []) (h : ∀ x ∈ l, x = m) :
    list_max l = some m := by
  induction l with
  | nil => exact absurd rfl hne
  | cons a l ih =>
    rw [list_max]
    cases l with
    | nil =>
      rw [h a (List.mem_cons_self a [])]
      rfl
    | cons b l' =>
      rw [ih (by simp) (fun x hx => h x (List.mem_cons_of_mem a hx))]
      rw [h a (List.mem_cons_self a _)]
      simp

theorem getLast?_of_ne_nil {β : Type} (l : List β) (h : l ≠ []) : ∃ a, l.getLast? = some a := by
  cases hl : l.getLast? with
  | none => exact absurd (List.getLast?_eq_none_iff.mp hl) h
  | some a => exact ⟨a, rfl⟩

/-- Description of a successful `reset_ball`: only `x_tot` and `y_tot`
change, by appending copies of the last sample. -/
theorem reset_ball_spec (m : ℕ) (b b' : Ball α) (h : reset_ball m b = some b') :
    ∃ xl yl, b.x_tot.getLast? = some xl ∧ b.y_tot.getLast? = some yl ∧
      b' = { b with
        x_tot := b.x_tot ++ List.replicate (m - b.x_tot.length) xl,
        y_tot := b.y_tot ++ List.replicate (m - b.x_tot.length) yl } := by
  cases hx : b.x_tot.getLast? with
  | none => rw [reset_ball, hx] at h; cases h
  | some xl =>
    cases hy : b.y_tot.getLast? with
    | none => rw [reset_ball, hx, hy] at h; cases h
    | some yl =>
      rw [reset_ball, hx, hy] at h
      cases h
      exact ⟨xl, yl, rfl, rfl, rfl⟩

theorem reset_ball_some (m : ℕ) (b : Ball α) (hx : b.x_tot ≠ []) (hy : b.y_tot ≠ []) :
    ∃ b', reset_ball m b = some b' := by
  obtain ⟨xl, hxl⟩ := getLast?_of_ne_nil b.x_tot hx
  obtain ⟨yl, hyl⟩ := getLast?_of_ne_nil b.y_tot hy
  rw [reset_ball, hxl, hyl]
  exact ⟨_, rfl⟩

theorem reset_ball_none (m : ℕ) (b : Ball α) (h : reset_ball m b = none) :
    b.x_tot = [] ∨ b.y_tot = [] := by
  by_contra hc
  push_neg at hc
  obtain ⟨b', hb'⟩ := reset_ball_some m b hc.1 hc.2
  rw [hb'] at h
  cases h

/-- A successful `reset_time` relates input and output balls elementwise. -/
theorem reset_time_spec (m : ℕ) (balls balls' : List (Ball α))
    (h : reset_time m balls = some balls') :
    List.Forall₂ (fun b b' => reset_ball m b = some b') balls balls' := by
  induction balls generalizing balls' with
  | nil => rw [reset_time] at h; cases h; exact List.Forall₂.nil
  | cons b bs ih =>
    rw [reset_time] at h
    cases hb : reset_ball m b with
    | none => rw [hb] at h; cases h
    | some b' =>
      cases hbs : reset_time m bs with
      | none => rw [hb, hbs] at h; cases h
      | some bs' =>
        rw [hb, hbs] at h
        cases h
        exact List.Forall₂.cons hb (ih bs' hbs)

theorem reset_time_some (m : ℕ) (balls : List (Ball α))
    (h : ∀ b ∈ balls, b.x_tot ≠ [] ∧ b.y_tot ≠ []) :
    ∃ balls', reset_time m balls = some balls' := by
  induction balls with
  | nil => exact ⟨[], rfl⟩
  | cons b bs ih =>
    obtain ⟨b', hb'⟩ := reset_ball_some m b (h b (List.mem_cons_self b bs)).1
      (h b (List.mem_cons_self b bs)).2
    obtain ⟨bs', hbs'⟩ := ih (fun x hx => h x (List.mem_cons_of_mem b hx))
    rw [reset_time, hb', hbs']
    exact ⟨_, rfl⟩

theorem forall₂_mem_right {β γ : Type} {R : β → γ → Prop} {l : List β} {l' : List γ}
    (h : List.Forall₂ R l l') (c : γ) (hc : c ∈ l') : ∃ b ∈ l, R b c := by
  induction h with
  | nil => cases hc
  | cons hR hF ih =>
    cases hc with
    | head => exact ⟨_, List.mem_cons_self _ _, hR⟩
    | tail _ hc' =>
      obtain ⟨b, hb, hR'⟩ := ih hc'
      exact ⟨b, List.mem_cons_of_mem _ hb, hR'⟩

/-! ### Angle and first-arc helpers -/

theorem sin_pos_of_mem_Ioc (θ : ℝ) (hθ : θ ∈ Set.Ioc 0 (Real.pi / 2)) : 0 < Real.sin θ :=
  Real.sin_pos_of_pos_of_lt_pi hθ.1 (lt_of_le_of_lt hθ.2 (by linarith [Real.pi_pos]))

/-- With `t0 = 0`, the `np.arange` grid of the first arc has exactly 100
samples (the bug `dt = tmax/100` instead of `(tmax-t0)/100` is harmless
then, since `tmax = T + t0 = T`). -/
theorem first_arc_len (p : LaunchParams α) (ht0 : p.t0 = 0)
    (hT : 0 < 2 * p.v0 * p.s / p.g) : (ball_setup p).t.length = 100 := by
  have hTne : 2 * p.v0 * p.s / p.g ≠ 0 := ne_of_gt hT
  have hstep : (2 * p.v0 * p.s / p.g + p.t0) / 100 ≠ 0 := by
    rw [ht0, add_zero]
    exact ne_of_gt (div_pos hT (by norm_num))
  have hm : (2 * p.v0 * p.s / p.g + p.t0 - p.t0) / ((2 * p.v0 * p.s / p.g + p.t0) / 100) =
      ((100 : ℕ) : α) := by
    rw [ht0, add_zero, sub_zero, div_div_eq_mul_div, mul_comm, mul_div_assoc,
      div_self hTne, mul_one]
    norm_num
  show (arange p.t0 (2 * p.v0 * p.s / p.g + p.t0) ((2 * p.v0 * p.s / p.g + p.t0) / 100)).length
      = 100
  rw [length_arange]
  exact arangeLen_eq_of_div _ _ _ 100 hstep hm

theorem arange_getLast? (start stop step : α) (m : ℕ)
    (h : arangeLen start stop step = m + 1) :
    (arange start stop step).getLast? = some (start + (m : α) * step) := by
  rw [arange, h, getLast?_map_range]

/-! ### Claim C1 -/

/-- C1, amended (the claim holds only for `t0 = 0`; for a general launch
time offset the first arc has `ceil(100*T/(T+t0))` samples because the
code uses `dt = tmax/100` with `tmax = T + t0`): for valid parameters with
`t0 = 0`, the first arc contributes exactly 100 samples and the whole
trajectory has exactly `100 * n_rebounds` samples. -/
theorem c1_sample_count (g x0 y0 v0 θ r : ℝ) (n : ℕ) (hg : 0 < g) (hn : 1 ≤ n) (hv : 0 < v0)
    (hθ : θ ∈ Set.Ioc 0 (Real.pi / 2)) :
    (ball_setup (⟨g, n, x0, y0, v0, Real.sin θ, Real.cos θ, r, 0⟩ : LaunchParams ℝ)).t.length
      = 100 ∧
    (ball_new (⟨g, n, x0, y0, v0, Real.sin θ, Real.cos θ, r, 0⟩ : LaunchParams ℝ)).x_tot.length
      = 100 * n ∧
    (ball_new (⟨g, n, x0, y0, v0, Real.sin θ, Real.cos θ, r, 0⟩ : LaunchParams ℝ)).y_tot.length
      = 100 * n := by
  have hs : 0 < Real.sin θ := sin_pos_of_mem_Ioc θ hθ
  have hT : 0 < 2 * v0 * Real.sin θ / g := by positivity
  have h100 : (ball_setup (⟨g, n, x0, y0, v0, Real.sin θ, Real.cos θ, r, 0⟩ :
      LaunchParams ℝ)).t.length = 100 :=
    first_arc_len _ rfl hT
  refine ⟨h100, ?_, ?_⟩
  · rw [ball_new_x_len, h100]
    show 100 + 100 * (n - 1) = 100 * n
    omega
  · rw [ball_new_y_len, h100]
    show 100 + 100 * (n - 1) = 100 * n
    omega

/-- Witness for C1 at `g = 1`, `n = 1`, `v0 = 1`, `theta = pi/2`, `r = 1/2`,
`t0 = 0`. -/
theorem c1_sample_count_witness :
    (0:ℝ) < 1 ∧ 1 ≤ 1 ∧
    Real.pi / 2 ∈ Set.Ioc (0:ℝ) (Real.pi / 2) ∧
    (ball_new (⟨1, 1, 0, 0, 1, Real.sin (Real.pi / 2), Real.cos (Real.pi / 2), 1/2, 0⟩ :
      LaunchParams ℝ)).x_tot.length = 100 * 1 := by
  have hθ : Real.pi / 2 ∈ Set.Ioc (0:ℝ) (Real.pi / 2) := ⟨by positivity, le_refl _⟩
  exact ⟨one_pos, le_refl 1, hθ,
    (c1_sample_count 1 0 0 1 (Real.pi / 2) (1/2) 1 one_pos (le_refl 1) one_pos hθ).2.1⟩

/-- C1 as stated is false: it quantifies over any real `t0`, but with
`g = 1`, `n_rebounds = 1`, `v0 = 1`, `theta = pi/2`, `t0 = 2` the code
produces 50 samples, not `100 * 1` (here `tmax = 4`, `dt = 4/100`, and
`np.arange(2, 4, 0.04)` has `ceil(2/0.04) = 50` entries). -/
theorem c1_counterexample :
    (ball_new (⟨1, 1, 0, 0, 1, Real.sin (Real.pi / 2), Real.cos (Real.pi / 2), 1/2, 2⟩ :
      LaunchParams ℝ)).x_tot.length = 50 ∧ (50 : ℕ) ≠ 100 * 1 := by
  constructor
  · rw [ball_new_x_len]
    have ht : (ball_setup (⟨1, 1, 0, 0, 1, Real.sin (Real.pi / 2), Real.cos (Real.pi / 2),
        1/2, 2⟩ : LaunchParams ℝ)).t.length = 50 := by
      show (arange (2:ℝ) (2 * 1 * Real.sin (Real.pi / 2) / 1 + 2)
        ((2 * 1 * Real.sin (Real.pi / 2) / 1 + 2) / 100)).length = 50
      rw [length_arange]
      apply arangeLen_eq_of_div _ _ _ 50
      · rw [Real.sin_pi_div_two]; norm_num
      · rw [Real.sin_pi_div_two]; norm_num
    rw [ht]
    show 50 + 100 * (1 - 1) = 50
    norm_num
  · decide

/-! ### Claim C8 -/

/-- C8: trajectory generation is a pure function of the eight launch
parameters; despite the name of `random_generation`, both sample sequences
equal a state-free closed form (arc-by-arc concatenation) in those eight
parameters alone, so two constructions with identical inputs produce
identical sequences. -/
theorem c8_deterministic (g x0 y0 v0 θ r t0 : ℝ) (n : ℕ) (hn : 1 ≤ n) :
    (ball_new (⟨g, n, x0, y0, v0, Real.sin θ, Real.cos θ, r, t0⟩ : LaunchParams ℝ)).x_tot
      = traj_x (⟨g, n, x0, y0, v0, Real.sin θ, Real.cos θ, r, t0⟩ : LaunchParams ℝ) ∧
    (ball_new (⟨g, n, x0, y0, v0, Real.sin θ, Real.cos θ, r, t0⟩ : LaunchParams ℝ)).y_tot
      = traj_y (⟨g, n, x0, y0, v0, Real.sin θ, Real.cos θ, r, t0⟩ : LaunchParams ℝ) :=
  ⟨ball_new_x_traj _ hn, ball_new_y_traj _ hn⟩

/-- Witness for C8 at concrete parameters. -/
theorem c8_deterministic_witness :
    1 ≤ 1 ∧
    (ball_new (⟨1, 1, 0, 0, 1, Real.sin (Real.pi / 2), Real.cos (Real.pi / 2), 1/2, 0⟩ :
      LaunchParams ℝ)).x_tot
      = traj_x (⟨1, 1, 0, 0, 1, Real.sin (Real.pi / 2), Real.cos (Real.pi / 2), 1/2, 0⟩ :
        LaunchParams ℝ) :=
  ⟨le_refl 1, (c8_deterministic 1 0 0 1 (Real.pi / 2) (1/2) 0 1 (le_refl 1)).1⟩

/-! ### Claim C3 -/

/-- C3, amended (continuity holds exactly at every boundary between two
loop arcs, i.e. between arcs `k` and `k+1` for `k ≥ 1` in the 0-based arc
numbering where arc 0 is the initial arc; the boundary between arc 0 and
arc 1 is excluded, see the counterexample): the trajectory decomposes into
the closed-form arcs, and for `1 ≤ k`, `k + 1 < n`, the last (x, y) sample
of arc `k` equals the first (x, y) sample of arc `k+1` exactly. -/
theorem c3_bounce_continuity (g x0 y0 v0 θ r t0 : ℝ) (n k : ℕ) (hg : 0 < g) (hn : 2 ≤ n)
    (hv : 0 < v0) (hθ : θ ∈ Set.Ioc 0 (Real.pi / 2)) (hk : 1 ≤ k) (hkn : k + 1 < n) :
    (ball_new (⟨g, n, x0, y0, v0, Real.sin θ, Real.cos θ, r, t0⟩ : LaunchParams ℝ)).x_tot
      = traj_x (⟨g, n, x0, y0, v0, Real.sin θ, Real.cos θ, r, t0⟩ : LaunchParams ℝ) ∧
    (ball_new (⟨g, n, x0, y0, v0, Real.sin θ, Real.cos θ, r, t0⟩ : LaunchParams ℝ)).y_tot
      = traj_y (⟨g, n, x0, y0, v0, Real.sin θ, Real.cos θ, r, t0⟩ : LaunchParams ℝ) ∧
    (arc_x (⟨g, n, x0, y0, v0, Real.sin θ, Real.cos θ, r, t0⟩ : LaunchParams ℝ) k).getLast?
      = (arc_x (⟨g, n, x0, y0, v0, Real.sin θ, Real.cos θ, r, t0⟩ : LaunchParams ℝ) (k + 1)).head? ∧
    (arc_y (⟨g, n, x0, y0, v0, Real.sin θ, Real.cos θ, r, t0⟩ : LaunchParams ℝ) k).getLast?
      = (arc_y (⟨g, n, x0, y0, v0, Real.sin θ, Real.cos θ, r, t0⟩ : LaunchParams ℝ) (k + 1)).head? := by
  have hk0 : k ≠ 0 := by omega
  have hk1 : k + 1 ≠ 0 := Nat.succ_ne_zero k
  have hgne : (⟨g, n, x0, y0, v0, Real.sin θ, Real.cos θ, r, t0⟩ : LaunchParams ℝ).g ≠ 0 :=
    ne_of_gt hg
  refine ⟨ball_new_x_traj _ (show 1 ≤ n by omega), ball_new_y_traj _ (show 1 ≤ n by omega),
    ?_, ?_⟩
  · rw [arc_x_getLast? _ _ hk0, arc_x_head? _ _ hk1]
  · rw [arc_y_getLast? _ _ hk0 hgne, arc_y_head? _ _ hk1]

/-- Witness for C3 at `g = 1`, `n = 3`, `v0 = 1`, `theta = pi/2`,
`r = 1/2`, `t0 = 0`, boundary `k = 1`. -/
theorem c3_bounce_continuity_witness :
    (0:ℝ) < 1 ∧ 2 ≤ 3 ∧ Real.pi / 2 ∈ Set.Ioc (0:ℝ) (Real.pi / 2) ∧ 1 + 1 < 3 ∧
    (arc_y (⟨1, 3, 0, 0, 1, Real.sin (Real.pi / 2), Real.cos (Real.pi / 2), 1/2, 0⟩ :
        LaunchParams ℝ) 1).getLast?
      = (arc_y (⟨1, 3, 0, 0, 1, Real.sin (Real.pi / 2), Real.cos (Real.pi / 2), 1/2, 0⟩ :
        LaunchParams ℝ) 2).head? := by
  have hθ : Real.pi / 2 ∈ Set.Ioc (0:ℝ) (Real.pi / 2) := ⟨by positivity, le_refl _⟩
  exact ⟨one_pos, by norm_num, hθ, by norm_num,
    (c3_bounce_continuity 1 0 0 1 (Real.pi / 2) (1/2) 0 3 1 one_pos (by norm_num) one_pos hθ
      (le_refl 1) (by norm_num)).2.2.2⟩

/-- C3 as stated is false at the first bounce boundary: with `g = 1`,
`n_rebounds = 2`, `v0 = 1`, `theta = pi/2`, `r = 1/2`, `t0 = 0`, the
trajectory is arc 0 followed by arc 1, the last y sample of arc 0 is
`99/5000 = 0.0198` (taken at `t = 1.98`, one `dt` before the bounce time
`t = 2`, because `np.arange` excludes its endpoint), while the first y
sample of arc 1 is `0` — a fixed gap of about 2 cm, not a floating-point
tolerance. -/
theorem c3_counterexample :
    (ball_new (⟨1, 2, 0, 0, 1, Real.sin (Real.pi / 2), Real.cos (Real.pi / 2), 1/2, 0⟩ :
        LaunchParams ℝ)).y_tot
      = arc_y (⟨1, 2, 0, 0, 1, Real.sin (Real.pi / 2), Real.cos (Real.pi / 2), 1/2, 0⟩ :
          LaunchParams ℝ) 0
        ++ arc_y (⟨1, 2, 0, 0, 1, Real.sin (Real.pi / 2), Real.cos (Real.pi / 2), 1/2, 0⟩ :
          LaunchParams ℝ) 1 ∧
    (arc_y (⟨1, 2, 0, 0, 1, Real.sin (Real.pi / 2), Real.cos (Real.pi / 2), 1/2, 0⟩ :
        LaunchParams ℝ) 0).getLast? = some (99/5000 : ℝ) ∧
    (arc_y (⟨1, 2, 0, 0, 1, Real.sin (Real.pi / 2), Real.cos (Real.pi / 2), 1/2, 0⟩ :
        LaunchParams ℝ) 1).head? = some (0 : ℝ) ∧
    (99/5000 : ℝ) ≠ 0 := by
  have h1 : arc_t0 (⟨1, 2, 0, 0, 1, Real.sin (Real.pi / 2), Real.cos (Real.pi / 2), 1/2, 0⟩ :
      LaunchParams ℝ) 1 = 2 := by
    rw [arc_t0_one]
    show 2 * 1 * Real.sin (Real.pi / 2) / 1 + 0 = 2
    rw [Real.sin_pi_div_two]; norm_num
  refine ⟨?_, ?_, ?_, by norm_num⟩
  · rw [ball_new_y_traj _ (by norm_num), traj_y]
    show ((List.range 2).map _).flatten = _
    rw [show List.range 2 = [0, 1] from rfl]
    simp
  · rw [arc_y, arc_times, if_pos rfl]
    rw [show ((arange _ _ _).map _).getLast? = Option.map _ (arange (0:ℝ)
        (arc_t0 (⟨1, 2, 0, 0, 1, Real.sin (Real.pi / 2), Real.cos (Real.pi / 2), 1/2, 0⟩ :
          LaunchParams ℝ) 1)
        (arc_t0 (⟨1, 2, 0, 0, 1, Real.sin (Real.pi / 2), Real.cos (Real.pi / 2), 1/2, 0⟩ :
          LaunchParams ℝ) 1 / 100)).getLast? from List.getLast?_map _ _]
    rw [arange_getLast? _ _ _ 99 ?hlen]
    case hlen =>
      rw [h1]
      exact arangeLen_eq_of_div _ _ _ 100 (by norm_num) (by norm_num)
    show some _ = _
    congr 1
    rw [h1, arc_t0_zero]
    show -(1:ℝ) / 2 * (0 + 99 * (2/100) - 0) ^ 2 +
        (1/2 : ℝ) ^ 0 * 1 * Real.sin (Real.pi / 2) * (0 + 99 * (2/100) - 0) + 0 = 99/5000
    rw [Real.sin_pi_div_two]
    norm_num
  · rw [arc_y_head? _ 1 one_ne_zero]

/-! ### Claim C5 -/

/-- C5: during generation, at every bounce iteration `k = 1..n_rebounds-1`,
the speed used for the new arc is `r^k * v0` (computed from the original
launch speed), the new arc's duration (`tmax - t0` of the loop state) is
`2*vr*sin(theta)/g`, and the horizontal origin advances by the previous
arc's speed times `cos(theta)` times the previous arc's duration. -/
theorem c5_bounce_update (g x0 y0 v0 θ r t0 : ℝ) (n k : ℕ) (hk : 1 ≤ k) (hkn : k ≤ n - 1) :
    (state_after (⟨g, n, x0, y0, v0, Real.sin θ, Real.cos θ, r, t0⟩ : LaunchParams ℝ) k).vr
      = r ^ k * v0 ∧
    (state_after (⟨g, n, x0, y0, v0, Real.sin θ, Real.cos θ, r, t0⟩ : LaunchParams ℝ) k).tmax
        - (state_after (⟨g, n, x0, y0, v0, Real.sin θ, Real.cos θ, r, t0⟩ : LaunchParams ℝ) k).t0
      = 2 * (state_after (⟨g, n, x0, y0, v0, Real.sin θ, Real.cos θ, r, t0⟩ :
          LaunchParams ℝ) k).vr * Real.sin θ / g ∧
    (state_after (⟨g, n, x0, y0, v0, Real.sin θ, Real.cos θ, r, t0⟩ : LaunchParams ℝ) k).x0
      = (state_after (⟨g, n, x0, y0, v0, Real.sin θ, Real.cos θ, r, t0⟩ :
          LaunchParams ℝ) (k - 1)).vr * Real.cos θ *
        ((state_after (⟨g, n, x0, y0, v0, Real.sin θ, Real.cos θ, r, t0⟩ :
            LaunchParams ℝ) (k - 1)).tmax -
          (state_after (⟨g, n, x0, y0, v0, Real.sin θ, Real.cos θ, r, t0⟩ :
            LaunchParams ℝ) (k - 1)).t0) +
        (state_after (⟨g, n, x0, y0, v0, Real.sin θ, Real.cos θ, r, t0⟩ :
          LaunchParams ℝ) (k - 1)).x0 := by
  obtain ⟨hvr, ht0, htmax, hx0, hxt, hyt⟩ :=
    state_spec (⟨g, n, x0, y0, v0, Real.sin θ, Real.cos θ, r, t0⟩ : LaunchParams ℝ) k
  have hk1 : k - 1 + 1 = k := by omega
  have hdur : arc_dur (⟨g, n, x0, y0, v0, Real.sin θ, Real.cos θ, r, t0⟩ :
      LaunchParams ℝ) k = 2 * (r ^ k * v0) * Real.sin θ / g := rfl
  refine ⟨hvr, ?_, ?_⟩
  · rw [htmax, ht0, hvr, arc_t0_succ, hdur]
    ring
  · have hc : (state_after (⟨g, n, x0, y0, v0, Real.sin θ, Real.cos θ, r, t0⟩ :
        LaunchParams ℝ) (k - 1)).c = Real.cos θ :=
      bounce_iter_c _ _
    calc (state_after (⟨g, n, x0, y0, v0, Real.sin θ, Real.cos θ, r, t0⟩ :
          LaunchParams ℝ) k).x0
        = (state_after (⟨g, n, x0, y0, v0, Real.sin θ, Real.cos θ, r, t0⟩ :
            LaunchParams ℝ) (k - 1 + 1)).x0 := by rw [hk1]
      _ = (state_after _ (k - 1)).vr * (state_after _ (k - 1)).c *
            ((state_after _ (k - 1)).tmax - (state_after _ (k - 1)).t0) +
            (state_after _ (k - 1)).x0 := rfl
      _ = _ := by rw [hc]

/-- Witness for C5 at concrete parameters, `k = 1`, `n = 2`. -/
theorem c5_bounce_update_witness :
    1 ≤ 1 ∧ 1 ≤ 2 - 1 ∧
    (state_after (⟨1, 2, 0, 0, 1, Real.sin (Real.pi / 2), Real.cos (Real.pi / 2), 1/2, 0⟩ :
      LaunchParams ℝ) 1).vr = (1/2 : ℝ) ^ 1 * 1 :=
  ⟨le_refl 1, le_refl 1,
    (c5_bounce_update 1 0 0 1 (Real.pi / 2) (1/2) 0 2 1 (le_refl 1) (le_refl 1)).1⟩

/-! ### Claim C6 -/

theorem apex_height_eq (b : Ball α) (hg : b.g ≠ 0) :
    apex_height b = b.vr ^ 2 * b.s ^ 2 / (2 * b.g) := by
  rw [apex_height, arc_y_of]
  field_simp
  ring

theorem parabola_vertex_max (g' A y τ : ℝ) (hg : 0 < g') :
    -g' / 2 * τ ^ 2 + A * τ + y ≤ -g' / 2 * (A / g') ^ 2 + A * (A / g') + y := by
  rw [← sub_nonneg]
  have key : -g' / 2 * (A / g') ^ 2 + A * (A / g') + y - (-g' / 2 * τ ^ 2 + A * τ + y)
      = (g' * τ - A) ^ 2 / (2 * g') := by
    field_simp
    ring
  rw [key]
  exact div_nonneg (sq_nonneg _) (by linarith)

/-- C6: for every bounce index `k`, the apex height of arc `k` (the value
of that arc's closed-form parabola at its vertex, above the launch height
`y0`) equals `(r^k)^2` times the apex height of the first arc; moreover
the vertex value really is the maximum of the arc's parabola. -/
theorem c6_apex_scaling (g x0 y0 v0 θ r t0 : ℝ) (n k : ℕ) (hg : 0 < g) (hv : 0 < v0)
    (hθ : θ ∈ Set.Ioc 0 (Real.pi / 2)) (hr : r ∈ Set.Ioo (0:ℝ) 1) (hkn : k ≤ n - 1) :
    apex_height (state_after (⟨g, n, x0, y0, v0, Real.sin θ, Real.cos θ, r, t0⟩ :
        LaunchParams ℝ) k)
      = (r ^ k) ^ 2 * apex_height (state_after (⟨g, n, x0, y0, v0, Real.sin θ, Real.cos θ,
        r, t0⟩ : LaunchParams ℝ) 0) ∧
    ∀ τ : ℝ, arc_y_of (state_after (⟨g, n, x0, y0, v0, Real.sin θ, Real.cos θ, r, t0⟩ :
        LaunchParams ℝ) k) τ
      ≤ arc_y_of (state_after (⟨g, n, x0, y0, v0, Real.sin θ, Real.cos θ, r, t0⟩ :
          LaunchParams ℝ) k)
        ((state_after (⟨g, n, x0, y0, v0, Real.sin θ, Real.cos θ, r, t0⟩ :
            LaunchParams ℝ) k).vr *
          (state_after (⟨g, n, x0, y0, v0, Real.sin θ, Real.cos θ, r, t0⟩ :
            LaunchParams ℝ) k).s /
          (state_after (⟨g, n, x0, y0, v0, Real.sin θ, Real.cos θ, r, t0⟩ :
            LaunchParams ℝ) k).g) := by
  have hgk : (state_after (⟨g, n, x0, y0, v0, Real.sin θ, Real.cos θ, r, t0⟩ :
      LaunchParams ℝ) k).g = g := bounce_iter_g _ _
  have hg0 : (state_after (⟨g, n, x0, y0, v0, Real.sin θ, Real.cos θ, r, t0⟩ :
      LaunchParams ℝ) 0).g = g := bounce_iter_g _ _
  have hsk : (state_after (⟨g, n, x0, y0, v0, Real.sin θ, Real.cos θ, r, t0⟩ :
      LaunchParams ℝ) k).s = Real.sin θ := bounce_iter_s _ _
  have hs0 : (state_after (⟨g, n, x0, y0, v0, Real.sin θ, Real.cos θ, r, t0⟩ :
      LaunchParams ℝ) 0).s = Real.sin θ := bounce_iter_s _ _
  have hvrk : (state_after (⟨g, n, x0, y0, v0, Real.sin θ, Real.cos θ, r, t0⟩ :
      LaunchParams ℝ) k).vr = r ^ k * v0 :=
    (state_spec _ k).1
  have hvr0 : (state_after (⟨g, n, x0, y0, v0, Real.sin θ, Real.cos θ, r, t0⟩ :
      LaunchParams ℝ) 0).vr = r ^ 0 * v0 :=
    (state_spec _ 0).1
  constructor
  · rw [apex_height_eq _ (by rw [hgk]; exact ne_of_gt hg),
      apex_height_eq _ (by rw [hg0]; exact ne_of_gt hg),
      hgk, hg0, hsk, hs0, hvrk, hvr0, pow_zero, one_mul]
    ring
  · intro τ
    rw [arc_y_of, arc_y_of, hgk, hsk, hvrk]
    have hmax := parabola_vertex_max g (r ^ k * v0 * Real.sin θ)
      (state_after (⟨g, n, x0, y0, v0, Real.sin θ, Real.cos θ, r, t0⟩ :
        LaunchParams ℝ) k).y0 τ hg
    calc -g / 2 * τ ^ 2 + r ^ k * v0 * Real.sin θ * τ +
          (state_after (⟨g, n, x0, y0, v0, Real.sin θ, Real.cos θ, r, t0⟩ :
            LaunchParams ℝ) k).y0
        ≤ -g / 2 * (r ^ k * v0 * Real.sin θ / g) ^ 2 +
          r ^ k * v0 * Real.sin θ * (r ^ k * v0 * Real.sin θ / g) +
          (state_after (⟨g, n, x0, y0, v0, Real.sin θ, Real.cos θ, r, t0⟩ :
            LaunchParams ℝ) k).y0 := hmax
      _ = _ := by ring

/-- Witness for C6 at concrete parameters, `k = 1`, `n = 2`. -/
theorem c6_apex_scaling_witness :
    (0:ℝ) < 1 ∧ Real.pi / 2 ∈ Set.Ioc (0:ℝ) (Real.pi / 2) ∧
    (1/2 : ℝ) ∈ Set.Ioo (0:ℝ) 1 ∧ 1 ≤ 2 - 1 ∧
    apex_height (state_after (⟨1, 2, 0, 0, 1, Real.sin (Real.pi / 2), Real.cos (Real.pi / 2),
        1/2, 0⟩ : LaunchParams ℝ) 1)
      = ((1/2 : ℝ) ^ 1) ^ 2 * apex_height (state_after (⟨1, 2, 0, 0, 1,
        Real.sin (Real.pi / 2), Real.cos (Real.pi / 2), 1/2, 0⟩ : LaunchParams ℝ) 0) := by
  have hθ : Real.pi / 2 ∈ Set.Ioc (0:ℝ) (Real.pi / 2) := ⟨by positivity, le_refl _⟩
  exact ⟨one_pos, hθ, by norm_num, le_refl 1,
    (c6_apex_scaling 1 0 0 1 (Real.pi / 2) (1/2) 0 2 1 one_pos one_pos hθ (by norm_num)
      (le_refl 1)).1⟩

/-! ### Synchronizer claim helpers -/

theorem forall₂_strengthen {β γ : Type} {R : β → γ → Prop} {P : β → Prop} {l : List β}
    {l' : List γ} (h : List.Forall₂ R l l') (hP : ∀ b ∈ l, P b) :
    List.Forall₂ (fun b c => P b ∧ R b c) l l' := by
  induction h with
  | nil => exact List.Forall₂.nil
  | cons hR hF ih =>
    exact List.Forall₂.cons ⟨hP _ (List.mem_cons_self _ _), hR⟩
      (ih (fun x hx => hP x (List.mem_cons_of_mem _ hx)))

theorem forall₂_mem_left {β γ : Type} {R : β → γ → Prop} {l : List β} {l' : List γ}
    (h : List.Forall₂ R l l') (b : β) (hb : b ∈ l) : ∃ c ∈ l', R b c := by
  induction h with
  | nil => cases hb
  | cons hR hF ih =>
    cases hb with
    | head => exact ⟨_, List.mem_cons_self _ _, hR⟩
    | tail _ hb' =>
      obtain ⟨c, hc, hR'⟩ := ih hb'
      exact ⟨c, List.mem_cons_of_mem _ hc, hR'⟩

theorem ne_nil_of_getLast? {β : Type} {l : List β} {a : β} (h : l.getLast? = some a) :
    l ≠ [] := by
  intro hn
  rw [hn] at h
  cases h

/-- Full description of a successful `an_animation_init`. -/
theorem an_init_spec (balls balls' : List (Ball α)) (m : ℕ) (hm : max_len balls = some m)
    (h : an_animation_init balls = some balls') :
    List.Forall₂ (fun b b' => b.x_tot.length ≤ m ∧ ∃ xl yl,
      b.x_tot.getLast? = some xl ∧ b.y_tot.getLast? = some yl ∧
      b' = { b with
        x_tot := b.x_tot ++ List.replicate (m - b.x_tot.length) xl,
        y_tot := b.y_tot ++ List.replicate (m - b.x_tot.length) yl }) balls balls' := by
  rw [an_animation_init, hm] at h
  have hF := (reset_time_spec m balls balls' h).imp
    (fun {a b} hab => reset_ball_spec m a b hab)
  rw [max_len] at hm
  exact forall₂_strengthen hF
    (fun b hb => list_max_le _ m hm _ (List.mem_map_of_mem (fun x => x.x_tot.length) hb))

theorem reset_time_id (m : ℕ) (l : List (Ball α)) (h : ∀ b ∈ l, reset_ball m b = some b) :
    reset_time m l = some l := by
  induction l with
  | nil => rfl
  | cons b bs ih =>
    rw [reset_time, h b (List.mem_cons_self _ _),
      ih (fun x hx => h x (List.mem_cons_of_mem _ hx))]

/-! ### Claim C2 -/

/-- C2, amended (every trajectory in the ensemble must be non-empty; a
trajectory with no samples makes the padding code raise IndexError on
`x_tot[-1]`, see the counterexample): for every non-empty ensemble of
non-empty trajectories, synchronization succeeds, returns as many
trajectories as it was given, gives every trajectory length
`max_len = max(L_1..L_N)` (the code measures lengths on `x_tot`), and pads
by repeating each trajectory's pre-padding final (x, y) position exactly. -/
theorem c2_synchronize (balls : List (Ball α)) (m : ℕ) (hne : balls ≠ [])
    (hx : ∀ b ∈ balls, b.x_tot ≠ []) (hy : ∀ b ∈ balls, b.y_tot ≠ [])
    (hm : max_len balls = some m) :
    ∃ balls', an_animation_init balls = some balls' ∧
      balls'.length = balls.length ∧
      List.Forall₂ (fun b b' =>
        b'.x_tot.length = m ∧
        ∃ xl yl, b.x_tot.getLast? = some xl ∧ b.y_tot.getLast? = some yl ∧
          b'.x_tot = b.x_tot ++ List.replicate (m - b.x_tot.length) xl ∧
          b'.y_tot = b.y_tot ++ List.replicate (m - b.x_tot.length) yl) balls balls' := by
  obtain ⟨balls', hrt⟩ := reset_time_some m balls (fun b hb => ⟨hx b hb, hy b hb⟩)
  have hinit : an_animation_init balls = some balls' := by
    rw [an_animation_init, hm]
    exact hrt
  have hspec := an_init_spec balls balls' m hm hinit
  refine ⟨balls', hinit, hspec.length_eq.symm, hspec.imp ?_⟩
  rintro a b ⟨hle, xl, yl, hxl, hyl, hb⟩
  subst hb
  refine ⟨?_, xl, yl, hxl, hyl, rfl, rfl⟩
  simp only [List.length_append, List.length_replicate]
  omega

/-- Witness for C2 on a concrete two-ball ensemble over ℚ with lengths 1
and 2. -/
theorem c2_synchronize_witness :
    ([(⟨1, 1, 0, 0, 1, 1, 0, 1, 0, 0, 0, [], [0], [5]⟩ : Ball ℚ),
      (⟨1, 1, 0, 0, 1, 1, 0, 1, 0, 0, 0, [], [1, 2], [3, 4]⟩ : Ball ℚ)] ≠ []) ∧
    max_len [(⟨1, 1, 0, 0, 1, 1, 0, 1, 0, 0, 0, [], [0], [5]⟩ : Ball ℚ),
      (⟨1, 1, 0, 0, 1, 1, 0, 1, 0, 0, 0, [], [1, 2], [3, 4]⟩ : Ball ℚ)] = some 2 ∧
    ∃ balls', an_animation_init
        [(⟨1, 1, 0, 0, 1, 1, 0, 1, 0, 0, 0, [], [0], [5]⟩ : Ball ℚ),
         (⟨1, 1, 0, 0, 1, 1, 0, 1, 0, 0, 0, [], [1, 2], [3, 4]⟩ : Ball ℚ)] = some balls' ∧
      balls'.length = 2 := by
  refine ⟨by decide, by decide, ?_⟩
  obtain ⟨balls', hinit, hlen, -⟩ := c2_synchronize
    [(⟨1, 1, 0, 0, 1, 1, 0, 1, 0, 0, 0, [], [0], [5]⟩ : Ball ℚ),
     (⟨1, 1, 0, 0, 1, 1, 0, 1, 0, 0, 0, [], [1, 2], [3, 4]⟩ : Ball ℚ)] 2
    (by decide) (by decide) (by decide) (by decide)
  exact ⟨balls', hinit, hlen⟩

/-- C2 as stated is false for an ensemble containing an empty trajectory:
the code evaluates `x_tot[-1]` even when no padding is needed, so a single
ball with no samples makes `reset_time` raise instead of returning the
one-trajectory ensemble of length `max(L_1) = 0` that the claim
describes. -/
theorem c2_counterexample :
    an_animation_init [(⟨1, 1, 0, 0, 1, 1, 0, 1, 0, 0, 0, [], [], []⟩ : Ball ℚ)] = none := by
  decide

/-! ### Claim C4 -/

/-- C4, amended (the synchronizer does have failure states: Python's
`max([])` raises ValueError on zero bodies — rather than propagating an
empty degenerate result — and `x_tot[-1]` raises IndexError on an empty
trajectory): synchronization succeeds exactly on the non-empty ensembles
of non-empty trajectories, and fails otherwise. -/
theorem c4_failure_semantics (balls : List (Ball α)) :
    (∃ balls', an_animation_init balls = some balls') ↔
      (balls ≠ [] ∧ ∀ b ∈ balls, b.x_tot ≠ [] ∧ b.y_tot ≠ []) := by
  constructor
  · rintro ⟨balls', h⟩
    cases hmax : max_len balls with
    | none =>
      rw [an_animation_init, hmax] at h
      cases h
    | some m =>
      have hspec := an_init_spec balls balls' m hmax h
      constructor
      · intro hnil
        subst hnil
        rw [max_len] at hmax
        cases hmax
      · intro b hb
        obtain ⟨b', hb', hle, xl, yl, hxl, hyl, hb'eq⟩ := forall₂_mem_left hspec b hb
        exact ⟨ne_nil_of_getLast? hxl, ne_nil_of_getLast? hyl⟩
  · rintro ⟨hne, hb⟩
    have hmap : balls.map (fun b => b.x_tot.length) ≠ [] := by
      intro hnil
      exact hne (List.map_eq_nil_iff.mp hnil)
    obtain ⟨m, hm⟩ := list_max_ne_nil _ hmap
    obtain ⟨balls', hrt⟩ := reset_time_some m balls hb
    refine ⟨balls', ?_⟩
    rw [an_animation_init, show max_len balls = some m from hm]
    exact hrt

/-- Witness for C4: a concrete one-ball ensemble over ℚ satisfies the
right-hand side, so synchronization succeeds on it. -/
theorem c4_failure_semantics_witness :
    ∃ balls', an_animation_init
      [(⟨1, 1, 0, 0, 1, 1, 0, 1, 0, 0, 0, [], [0, 1], [2, 3]⟩ : Ball ℚ)] = some balls' :=
  (c4_failure_semantics
    [(⟨1, 1, 0, 0, 1, 1, 0, 1, 0, 0, 0, [], [0, 1], [2, 3]⟩ : Ball ℚ)]).mpr
    ⟨by decide, by decide⟩

/-- C4 as stated is false on zero bodies: the claim says an empty ensemble
propagates as a degenerate empty result, but `max([])` raises ValueError,
modelled as `none`. -/
theorem c4_counterexample :
    an_animation_init ([] : List (Ball ℚ)) = none := by
  decide

/-! ### Claim C7 -/

/-- C7: synchronization is idempotent — applying `an_animation_init` to
the ensemble it produced returns that ensemble unchanged (all lengths
already equal `max_len`, so every padding is empty). -/
theorem c7_idempotent (balls balls' : List (Ball α))
    (h : an_animation_init balls = some balls') :
    an_animation_init balls' = some balls' := by
  cases hmax : max_len balls with
  | none =>
    rw [an_animation_init, hmax] at h
    cases h
  | some m =>
    have hspec := an_init_spec balls balls' m hmax h
    have hlen : ∀ b' ∈ balls', b'.x_tot.length = m := by
      intro b' hb'
      obtain ⟨b, hb, hle, xl, yl, hxl, hyl, hb'eq⟩ := forall₂_mem_right hspec b' hb'
      subst hb'eq
      simp only [List.length_append, List.length_replicate]
      omega
    have hne' : balls' ≠ [] := by
      intro hnil
      subst hnil
      have hlen0 : balls.length = 0 := hspec.length_eq
      rw [List.length_eq_zero.mp hlen0, max_len] at hmax
      cases hmax
    have hmax' : max_len balls' = some m := by
      rw [max_len]
      apply list_max_const _ m
      · intro hnil
        exact hne' (List.map_eq_nil_iff.mp hnil)
      · intro x hx
        obtain ⟨b', hb', rfl⟩ := List.mem_map.mp hx
        exact hlen b' hb'
    rw [an_animation_init, hmax']
    apply reset_time_id
    intro b' hb'
    obtain ⟨b, hb, hle, xl, yl, hxl, hyl, hb'eq⟩ := forall₂_mem_right hspec b' hb'
    have hxne : b'.x_tot ≠ [] := by
      rw [hb'eq]
      show b.x_tot ++ _ ≠ []
      intro hnil
      exact ne_nil_of_getLast? hxl (List.append_eq_nil.mp hnil).1
    have hyne : b'.y_tot ≠ [] := by
      rw [hb'eq]
      show b.y_tot ++ _ ≠ []
      intro hnil
      exact ne_nil_of_getLast? hyl (List.append_eq_nil.mp hnil).1
    obtain ⟨xl', hxl'⟩ := getLast?_of_ne_nil _ hxne
    obtain ⟨yl', hyl'⟩ := getLast?_of_ne_nil _ hyne
    rw [reset_ball, hxl', hyl']
    rw [show m - b'.x_tot.length = 0 by rw [hlen b' hb']; omega]
    simp only [List.replicate_zero, List.append_nil]

/-- Witness for C7 on a concrete ensemble over ℚ: the already-synchronized
singleton ensemble is a fixed point. -/
theorem c7_idempotent_witness :
    an_animation_init [(⟨1, 1, 0, 0, 1, 1, 0, 1, 0, 0, 0, [], [0], [5]⟩ : Ball ℚ)]
      = some [(⟨1, 1, 0, 0, 1, 1, 0, 1, 0, 0, 0, [], [0], [5]⟩ : Ball ℚ)] :=
  c7_idempotent [(⟨1, 1, 0, 0, 1, 1, 0, 1, 0, 0, 0, [], [0], [5]⟩ : Ball ℚ)]
    [(⟨1, 1, 0, 0, 1, 1, 0, 1, 0, 0, 0, [], [0], [5]⟩ : Ball ℚ)] (by decide)

/-! ### Claim C9 -/

/-- C9: `x_tot` and `y_tot` have equal length after construction (both arcs
are sampled on the same time grids), and synchronization preserves this
equality (both paddings count `max_len - len(x_tot)` elements). -/
theorem c9_xy_lengths (p : LaunchParams α) (balls balls' : List (Ball α))
    (hpre : ∀ b ∈ balls, b.x_tot.length = b.y_tot.length)
    (h : an_animation_init balls = some balls') :
    (ball_new p).x_tot.length = (ball_new p).y_tot.length ∧
    ∀ b' ∈ balls', b'.x_tot.length = b'.y_tot.length := by
  constructor
  · rw [ball_new_x_len, ball_new_y_len]
  · intro b' hb'
    cases hmax : max_len balls with
    | none =>
      rw [an_animation_init, hmax] at h
      cases h
    | some m =>
      obtain ⟨b, hb, hle, xl, yl, hxl, hyl, hb'eq⟩ :=
        forall₂_mem_right (an_init_spec balls balls' m hmax h) b' hb'
      subst hb'eq
      simp only [List.length_append, List.length_replicate]
      rw [hpre b hb]

/-- Witness for C9 on a concrete ensemble over ℚ (with a concrete launch
parameter record for the construction part). -/
theorem c9_xy_lengths_witness :
    (∀ b ∈ [(⟨1, 1, 0, 0, 1, 1, 0, 1, 0, 0, 0, [], [0], [5]⟩ : Ball ℚ),
        (⟨1, 1, 0, 0, 1, 1, 0, 1, 0, 0, 0, [], [1, 2], [3, 4]⟩ : Ball ℚ)],
      b.x_tot.length = b.y_tot.length) ∧
    (ball_new (⟨1, 2, 0, 0, 1, 1, 0, 1/2, 0⟩ : LaunchParams ℚ)).x_tot.length
      = (ball_new (⟨1, 2, 0, 0, 1, 1, 0, 1/2, 0⟩ : LaunchParams ℚ)).y_tot.length := by
  have h := c9_xy_lengths (⟨1, 2, 0, 0, 1, 1, 0, 1/2, 0⟩ : LaunchParams ℚ)
    [(⟨1, 1, 0, 0, 1, 1, 0, 1, 0, 0, 0, [], [0], [5]⟩ : Ball ℚ),
     (⟨1, 1, 0, 0, 1, 1, 0, 1, 0, 0, 0, [], [1, 2], [3, 4]⟩ : Ball ℚ)]
    [(⟨1, 1, 0, 0, 1, 1, 0, 1, 0, 0, 0, [], [0, 0], [5, 5]⟩ : Ball ℚ),
     (⟨1, 1, 0, 0, 1, 1, 0, 1, 0, 0, 0, [], [1, 2], [3, 4]⟩ : Ball ℚ)]
    (by decide) (by decide)
  exact ⟨by decide, h.1⟩

/-! ### Claim C10 -/

/-- C10: synchronization only appends padding to `x_tot` and `y_tot`; every
other stored field of every ball (including the angle data `s`, `c` that
the code derives from `theta`) is unchanged, and the ensemble keeps the
same balls in the same order (one output per input). -/
theorem c10_sync_frame (balls balls' : List (Ball α))
    (h : an_animation_init balls = some balls') :
    balls'.length = balls.length ∧
    List.Forall₂ (fun b b' =>
      b'.g = b.g ∧ b'.n_rebounds = b.n_rebounds ∧ b'.x0 = b.x0 ∧ b'.y0 = b.y0 ∧
      b'.v0 = b.v0 ∧ b'.s = b.s ∧ b'.c = b.c ∧ b'.r = b.r ∧ b'.t0 = b.t0 ∧
      b'.tmax = b.tmax ∧ b'.vr = b.vr ∧ b'.t = b.t ∧
      ∃ k xl yl, b.x_tot.getLast? = some xl ∧ b.y_tot.getLast? = some yl ∧
        b'.x_tot = b.x_tot ++ List.replicate k xl ∧
        b'.y_tot = b.y_tot ++ List.replicate k yl) balls balls' := by
  cases hmax : max_len balls with
  | none =>
    rw [an_animation_init, hmax] at h
    cases h
  | some m =>
    have hspec := an_init_spec balls balls' m hmax h
    refine ⟨hspec.length_eq.symm, hspec.imp ?_⟩
    rintro a b ⟨hle, xl, yl, hxl, hyl, hb⟩
    subst hb
    exact ⟨rfl, rfl, rfl, rfl, rfl, rfl, rfl, rfl, rfl, rfl, rfl, rfl,
      m - a.x_tot.length, xl, yl, hxl, hyl, rfl, rfl⟩

/-- Witness for C10 on a concrete ensemble over ℚ. -/
theorem c10_sync_frame_witness :
    [(⟨1, 1, 0, 0, 1, 1, 0, 1, 0, 0, 0, [], [0, 0], [5, 5]⟩ : Ball ℚ),
      (⟨1, 1, 0, 0, 1, 1, 0, 1, 0, 0, 0, [], [1, 2], [3, 4]⟩ : Ball ℚ)].length
      = [(⟨1, 1, 0, 0, 1, 1, 0, 1, 0, 0, 0, [], [0], [5]⟩ : Ball ℚ),
        (⟨1, 1, 0, 0, 1, 1, 0, 1, 0, 0, 0, [], [1, 2], [3, 4]⟩ : Ball ℚ)].length :=
  (c10_sync_frame
    [(⟨1, 1, 0, 0, 1, 1, 0, 1, 0, 0, 0, [], [0], [5]⟩ : Ball ℚ),
     (⟨1, 1, 0, 0, 1, 1, 0, 1, 0, 0, 0, [], [1, 2], [3, 4]⟩ : Ball ℚ)]
    [(⟨1, 1, 0, 0, 1, 1, 0, 1, 0, 0, 0, [], [0, 0], [5, 5]⟩ : Ball ℚ),
     (⟨1, 1, 0, 0, 1, 1, 0, 1, 0, 0, 0, [], [1, 2], [3, 4]⟩ : Ball ℚ)]
    (by decide)).1

end BallSpec
